import Mathlib

/-!
Verification of `unbalanced_dataset/combine/smote_enn.py`.

The file under scrutiny defines `SMOTEENN`, a two-stage resampling pipeline
that sequences a `SMOTE` over-sampler and an `EditedNearestNeighbours` (ENN)
cleaner.  The bodies of the collaborators (`SMOTE`,
`EditedNearestNeighbours`), of the base class (`BaseSampler`) and of the
validation helper (`sklearn.utils.check_X_y`) are not part of the slice under
verification; the orchestration code treats them as opaque.  We therefore
embed the orchestration parametrically over a record of collaborator
behaviours (`Behaviors`): each collaborator is a state type together with
fallible transition functions.  Python exceptions are `Except String`;
attribute mutation is explicit state passing.  `fit` and `transform` also
return the list of collaborator calls they performed, in order, so that
sequencing and atomicity properties can be read off the trace.
-/

namespace UnbalancedDataset

/-- A dataset, i.e. the pair `(X, y)` of a feature matrix and a label
vector, as handed to `fit` / `transform`. -/
structure Dataset where
  X : List (List Int)
  y : List Int
deriving DecidableEq, Repr

/-- The `ratio` parameter: the Python string `'auto'` or a float. -/
inductive Ratio where
  | auto : Ratio
  | frac : Rat → Ratio
deriving DecidableEq, Repr

/-- The keyword arguments forwarded to the `SMOTE` constructor at
`smote_enn.py` lines 165–168, in source order.  `kind` receives the
`kind_smote` constructor argument; `kwargs` holds the extra `**kwargs`. -/
structure SMOTEArgs where
  ratio : Ratio
  random_state : Option Int
  verbose : Bool
  k : Nat
  m : Nat
  out_step : Rat
  kind : String
  nn_method : String
  n_jobs : Int
  kwargs : List (String × String)
deriving DecidableEq, Repr

/-- The keyword arguments forwarded to the `EditedNearestNeighbours`
constructor at `smote_enn.py` lines 170–173, in source order.  `kind_sel`
receives the `kind_enn` constructor argument. -/
structure ENNArgs where
  random_state : Option Int
  verbose : Bool
  size_ngh : Nat
  kind_sel : String
  n_jobs : Int
deriving DecidableEq, Repr

/-- The keyword arguments forwarded to `BaseSampler.__init__` by the
`super().__init__` call at `smote_enn.py` lines 162–163. -/
structure BaseArgs where
  ratio : Ratio
  random_state : Option Int
  verbose : Bool
deriving DecidableEq, Repr

/-- One delegated call performed by the orchestration code, together with the
dataset it was called on.  `fit` and `transform` record their calls in
order. -/
inductive Event where
  | checkXy : Dataset → Event
  | baseFit : Dataset → Event
  | baseTransform : Dataset → Event
  | smoteFit : Dataset → Event
  | smoteTransform : Dataset → Event
  | ennFitTransform : Dataset → Event
deriving DecidableEq, Repr

/-- The opaque collaborators of `SMOTEENN`, as state types `σb` (the
`BaseSampler` part of `self`), `σs` (the `SMOTE` object) and `σe` (the
`EditedNearestNeighbours` object) with transition functions.  Constructors
are total; every other call may raise.  Calls that mutate their receiver
return the new state; `smoteTransform` and `ennFitTransform` additionally
return the resampled dataset. -/
structure Behaviors (σb σs σe : Type) where
  check_X_y : Dataset → Except String Dataset
  baseInit : BaseArgs → σb
  smoteInit : SMOTEArgs → σs
  ennInit : ENNArgs → σe
  baseFit : σb → Dataset → Except String σb
  baseTransform : σb → Dataset → Except String σb
  smoteFit : σs → Dataset → Except String σs
  smoteTransform : σs → Dataset → Except String (σs × Dataset)
  ennFitTransform : σe → Dataset → Except String (σe × Dataset)

/-- The state of a `SMOTEENN` object: the inherited `BaseSampler` attributes
and the two collaborator attributes `self.sm` and `self.enn` set in
`__init__`. -/
structure SMOTEENN (σb σs σe : Type) where
  base : σb
  sm : σs
  enn : σe
deriving DecidableEq, Repr

variable {σb σs σe : Type}

/-- Constructor `SMOTEENN.__init__` (`smote_enn.py` lines 100–173): call
`super().__init__` with `ratio`, `random_state`, `verbose`; construct
`self.sm` as a `SMOTE` with the forwarded configuration (with `kind_smote`
as its `kind`) plus the extra `**kwargs`; construct `self.enn` as an
`EditedNearestNeighbours` with `random_state`, `verbose`, `size_ngh`,
`kind_enn` (as its `kind_sel`) and `n_jobs`. -/
def SMOTEENN.init (b : Behaviors σb σs σe) (ratio : Ratio)
    (random_state : Option Int) (verbose : Bool) (k m : Nat) (out_step : Rat)
    (kind_smote nn_method : String) (size_ngh : Nat) (kind_enn : String)
    (n_jobs : Int) (kwargs : List (String × String)) : SMOTEENN σb σs σe :=
  SMOTEENN.mk
    (b.baseInit (BaseArgs.mk ratio random_state verbose))
    (b.smoteInit (SMOTEArgs.mk ratio random_state verbose k m out_step
      kind_smote nn_method n_jobs kwargs))
    (b.ennInit (ENNArgs.mk random_state verbose size_ngh kind_enn n_jobs))

/-- Method `SMOTEENN.fit` (`smote_enn.py` lines 175–200): validate with
`check_X_y`, call `super().fit` on the validated data, call `self.sm.fit`
on the validated data, return `self`.  The first component is the trace of
delegated calls, in order; an exception in any call aborts the sequence and
propagates. -/
def SMOTEENN.fit (b : Behaviors σb σs σe) (s : SMOTEENN σb σs σe)
    (d : Dataset) : List Event × Except String (SMOTEENN σb σs σe) :=
  match b.check_X_y d with
  | .error e => ([Event.checkXy d], .error e)
  | .ok d₁ =>
    match b.baseFit s.base d₁ with
    | .error e => ([Event.checkXy d, Event.baseFit d₁], .error e)
    | .ok base₁ =>
      match b.smoteFit s.sm d₁ with
      | .error e =>
        ([Event.checkXy d, Event.baseFit d₁, Event.smoteFit d₁], .error e)
      | .ok sm₁ =>
        ([Event.checkXy d, Event.baseFit d₁, Event.smoteFit d₁],
          .ok (SMOTEENN.mk base₁ sm₁ s.enn))

/-- Method `SMOTEENN.transform` (`smote_enn.py` lines 202–231): validate with
`check_X_y`, call `super().transform` on the validated data (its return
value is discarded), call `self.sm.transform` on the validated data, and
return the result of `self.enn.fit_transform` applied to the SMOTE output.
The returned `SMOTEENN` component records the mutation of `self`; the
`Dataset` component is the return value of the Python method. -/
def SMOTEENN.transform (b : Behaviors σb σs σe) (s : SMOTEENN σb σs σe)
    (d : Dataset) :
    List Event × Except String (SMOTEENN σb σs σe × Dataset) :=
  match b.check_X_y d with
  | .error e => ([Event.checkXy d], .error e)
  | .ok d₁ =>
    match b.baseTransform s.base d₁ with
    | .error e => ([Event.checkXy d, Event.baseTransform d₁], .error e)
    | .ok base₁ =>
      match b.smoteTransform s.sm d₁ with
      | .error e =>
        ([Event.checkXy d, Event.baseTransform d₁, Event.smoteTransform d₁],
          .error e)
      | .ok (sm₁, d₂) =>
        match b.ennFitTransform s.enn d₂ with
        | .error e =>
          ([Event.checkXy d, Event.baseTransform d₁,
            Event.smoteTransform d₁, Event.ennFitTransform d₂], .error e)
        | .ok (enn₁, dres) =>
          ([Event.checkXy d, Event.baseTransform d₁,
            Event.smoteTransform d₁, Event.ennFitTransform d₂],
            .ok (SMOTEENN.mk base₁ sm₁ enn₁, dres))

/-- The documented usage pattern `smote_enn.fit(X, y).transform(X, y)`:
`fit` then `transform` on the same data, returning the resampled dataset. -/
def SMOTEENN.fitThenTransform (b : Behaviors σb σs σe)
    (s : SMOTEENN σb σs σe) (d : Dataset) : Except String Dataset :=
  match (SMOTEENN.fit b s d).2 with
  | .error e => .error e
  | .ok s₁ =>
    match (SMOTEENN.transform b s₁ d).2 with
    | .error e => .error e
    | .ok (_, dres) => .ok dres

/-- Modelled from the spec: `sklearn.utils.check_X_y` (the "library
function" the spec's input validation is delegated to; not under `src/`)
checks the consistency of `X` and `y`: `X` must be a non-empty rectangular
2-d array and `y` must have one label per row of `X`.  On success it
returns the validated pair. -/
def check_X_y_model (d : Dataset) : Except String Dataset :=
  if d.X.length = 0 then
    .error "Found array with 0 sample(s)"
  else if d.X.length ≠ d.y.length then
    .error "Found input variables with inconsistent numbers of samples"
  else if d.X.all (fun row => row.length = (d.X.headD []).length) then
    .ok d
  else
    .error "setting an array element with a sequence"

/-- The distinct class labels occurring in a label vector, in order of
first occurrence. -/
def classesOf (y : List Int) : List Int :=
  y.dedup

/-- Modelled from the spec: the state of `BaseSampler`
(`unbalanced_dataset/base_sampler.py`, not under `src/`): the constructor
arguments plus the class statistics `stats_c_` computed by `fit` (empty
before fitting). -/
structure BaseState where
  args : BaseArgs
  stats_c : List (Int × Nat)
  is_fitted : Bool
deriving DecidableEq, Repr

/-- Modelled from the spec: `BaseSampler.__init__` (not under `src/`)
records `ratio`, `random_state` and `verbose` on the object. -/
def baseInitModel (a : BaseArgs) : BaseState :=
  BaseState.mk a [] false

/-- Modelled from the spec: `BaseSampler.fit` (not under `src/`) computes
the per-class statistics of `y` and, per the class docstring "This class
does not support mutli-class", raises when `y` holds more than two distinct
classes. -/
def baseFitModel (s : BaseState) (d : Dataset) : Except String BaseState :=
  if 2 < (classesOf d.y).length then
    .error "Multi-class is not supported"
  else
    .ok (BaseState.mk s.args
      ((classesOf d.y).map (fun c => (c, d.y.count c))) true)

/-- Modelled from the spec: `BaseSampler.transform` (not under `src/`)
raises when the sampler has not been fitted, and otherwise leaves the state
unchanged. -/
def baseTransformModel (s : BaseState) (_d : Dataset) :
    Except String BaseState :=
  if s.is_fitted then .ok s
  else .error "You need to fit the data, first!!!"

/-- A concrete instantiation of the collaborators used to evaluate the
orchestration on closed inputs: the base sampler follows the modelled
`BaseSampler`, the `SMOTE` and `EditedNearestNeighbours` states are their
constructor arguments, `SMOTE.transform` passes the data through and
`EditedNearestNeighbours.fit_transform` drops the last sample. -/
def demoBehaviors : Behaviors BaseState SMOTEArgs ENNArgs :=
  Behaviors.mk check_X_y_model baseInitModel id id
    baseFitModel baseTransformModel
    (fun s _ => .ok s)
    (fun s d => .ok (s, d))
    (fun s d => .ok (s, Dataset.mk d.X.dropLast d.y.dropLast))

/-- A concrete `SMOTEENN` object for closed evaluations: the constructor
applied to `demoBehaviors` and the Python default arguments. -/
def demoObj : SMOTEENN BaseState SMOTEArgs ENNArgs :=
  SMOTEENN.init demoBehaviors Ratio.auto none true 5 10 (1 / 2) "regular"
    "exact" 3 "all" (-1) []

/-- A concrete binary dataset: four samples, two classes. -/
def demoData : Dataset :=
  Dataset.mk [[0, 0], [1, 1], [2, 2], [3, 3]] [0, 0, 0, 1]

/-- A concrete three-class dataset. -/
def demoMulticlass : Dataset :=
  Dataset.mk [[0, 0], [1, 1], [2, 2]] [0, 1, 2]

/-- A concrete invalid input: `X` and `y` disagree on the number of
samples, so `check_X_y` raises. -/
def demoBadData : Dataset :=
  Dataset.mk [[0, 0], [1, 1]] [0]

/-- The `BaseState` reached by fitting `demoObj` on `demoData` under the
modelled `BaseSampler.fit`. -/
def demoFittedBase : BaseState :=
  BaseState.mk (BaseArgs.mk Ratio.auto none true) [(0, 3), (1, 1)] true

/-- The demo object after a successful `fit` on `demoData`: the base statistics
are filled in, `sm` and `enn` are as constructed. -/
def demoFitted : SMOTEENN BaseState SMOTEArgs ENNArgs :=
  SMOTEENN.mk demoFittedBase demoObj.sm demoObj.enn

/-- C3: for every constructor argument assignment, `SMOTEENN.__init__`
instantiates exactly two collaborators with the configuration forwarded:
the `SMOTE` collaborator receives the given `ratio`, `random_state`,
`verbose`, `k`, `m`, `out_step`, `kind_smote` (as its `kind`), `nn_method`,
`n_jobs` and the extra keyword arguments, and the
`EditedNearestNeighbours` collaborator receives the given `random_state`,
`verbose`, `size_ngh`, `kind_enn` (as its `kind_sel`) and `n_jobs`;
the inherited base state receives `ratio`, `random_state` and `verbose`. -/
theorem init_instantiates_collaborators (σb σs σe : Type)
    (b : Behaviors σb σs σe) (ratio : Ratio) (random_state : Option Int)
    (verbose : Bool) (k m : Nat) (out_step : Rat)
    (kind_smote nn_method : String) (size_ngh : Nat) (kind_enn : String)
    (n_jobs : Int) (kwargs : List (String × String)) :
    SMOTEENN.init b ratio random_state verbose k m out_step kind_smote
        nn_method size_ngh kind_enn n_jobs kwargs =
      SMOTEENN.mk
        (b.baseInit (BaseArgs.mk ratio random_state verbose))
        (b.smoteInit (SMOTEArgs.mk ratio random_state verbose k m out_step
          kind_smote nn_method n_jobs kwargs))
        (b.ennInit (ENNArgs.mk random_state verbose size_ngh kind_enn
          n_jobs)) :=
  rfl

/-- C7: the constructor hands the same `random_state` value to both the
`SMOTE` and the `ENN` collaborator, and the whole pipeline is a pure
function of the collaborator behaviours, the constructor arguments and the
data, so two constructor-fit-transform runs with a fixed `random_state` on
equal inputs produce equal resampled outputs. -/
theorem same_seed_forwarded_deterministic (σb σs σe : Type)
    (b : Behaviors σb σs σe) (ratio : Ratio) (random_state : Option Int)
    (verbose : Bool) (k m : Nat) (out_step : Rat)
    (kind_smote nn_method : String) (size_ngh : Nat) (kind_enn : String)
    (n_jobs : Int) (kwargs : List (String × String)) (d : Dataset) :
    (∃ sargs : SMOTEArgs, ∃ eargs : ENNArgs,
        sargs.random_state = random_state ∧
        eargs.random_state = random_state ∧
        SMOTEENN.init b ratio random_state verbose k m out_step kind_smote
            nn_method size_ngh kind_enn n_jobs kwargs =
          SMOTEENN.mk
            (b.baseInit (BaseArgs.mk ratio random_state verbose))
            (b.smoteInit sargs) (b.ennInit eargs)) ∧
    SMOTEENN.fitThenTransform b
        (SMOTEENN.init b ratio random_state verbose k m out_step kind_smote
          nn_method size_ngh kind_enn n_jobs kwargs) d =
      SMOTEENN.fitThenTransform b
        (SMOTEENN.init b ratio random_state verbose k m out_step kind_smote
          nn_method size_ngh kind_enn n_jobs kwargs) d :=
  ⟨⟨SMOTEArgs.mk ratio random_state verbose k m out_step kind_smote
      nn_method n_jobs kwargs,
    ENNArgs.mk random_state verbose size_ngh kind_enn n_jobs,
    rfl, rfl, rfl⟩, rfl⟩

/-- C8: the `ratio` parameter and the extra keyword arguments are never
forwarded to the `ENN` collaborator: two constructor calls that differ only
in `ratio` or in the extra keyword arguments construct the `ENN`
collaborator with identical arguments. -/
theorem enn_independent_of_ratio_kwargs (σb σs σe : Type)
    (b : Behaviors σb σs σe) (ratio₁ ratio₂ : Ratio)
    (random_state : Option Int) (verbose : Bool) (k m : Nat)
    (out_step : Rat) (kind_smote nn_method : String) (size_ngh : Nat)
    (kind_enn : String) (n_jobs : Int)
    (kwargs₁ kwargs₂ : List (String × String)) :
    (SMOTEENN.init b ratio₁ random_state verbose k m out_step kind_smote
        nn_method size_ngh kind_enn n_jobs kwargs₁).enn =
      (SMOTEENN.init b ratio₂ random_state verbose k m out_step kind_smote
        nn_method size_ngh kind_enn n_jobs kwargs₂).enn :=
  rfl

/-- C1: whenever validation and the delegated calls succeed, `transform`
returns exactly the result of `self.enn.fit_transform` applied to the output
of `self.sm.transform` on the validated data, with no further modification
of the returned pair. -/
theorem transform_is_smote_then_enn (σb σs σe : Type)
    (b : Behaviors σb σs σe) (s : SMOTEENN σb σs σe) (d d₁ : Dataset)
    (base₁ : σb) (sm₁ : σs) (d₂ : Dataset) (enn₁ : σe) (dres : Dataset)
    (hc : b.check_X_y d = .ok d₁)
    (hb : b.baseTransform s.base d₁ = .ok base₁)
    (hs : b.smoteTransform s.sm d₁ = .ok (sm₁, d₂))
    (he : b.ennFitTransform s.enn d₂ = .ok (enn₁, dres)) :
    (SMOTEENN.transform b s d).2 = .ok (SMOTEENN.mk base₁ sm₁ enn₁, dres) := by
  simp [SMOTEENN.transform, hc, hb, hs, he]

/-- Closed instance of C1: on the fitted demo object and the demo data,
`transform` returns the ENN output of the SMOTE output. -/
theorem transform_is_smote_then_enn_witness :
    (SMOTEENN.transform demoBehaviors demoFitted demoData).2 =
      .ok (SMOTEENN.mk demoFitted.base demoFitted.sm demoFitted.enn,
        Dataset.mk [[0, 0], [1, 1], [2, 2]] [0, 0, 0]) :=
  transform_is_smote_then_enn BaseState SMOTEArgs ENNArgs demoBehaviors
    demoFitted demoData demoData demoFitted.base demoFitted.sm demoData
    demoFitted.enn (Dataset.mk [[0, 0], [1, 1], [2, 2]] [0, 0, 0])
    rfl rfl rfl rfl

/-- C2: whenever validation and the delegated calls succeed, `fit` performs
the validation call, the base-sampler fit and the `SMOTE` collaborator's
fit, in exactly that order, and returns the `SMOTEENN` object itself (its
base and `sm` attributes updated in place, `enn` untouched), so that
`fit(X, y).transform(X, y)` is well-formed. -/
theorem fit_order_and_returns_self (σb σs σe : Type)
    (b : Behaviors σb σs σe) (s : SMOTEENN σb σs σe) (d d₁ : Dataset)
    (base₁ : σb) (sm₁ : σs)
    (hc : b.check_X_y d = .ok d₁)
    (hb : b.baseFit s.base d₁ = .ok base₁)
    (hs : b.smoteFit s.sm d₁ = .ok sm₁) :
    SMOTEENN.fit b s d =
      ([Event.checkXy d, Event.baseFit d₁, Event.smoteFit d₁],
        .ok (SMOTEENN.mk base₁ sm₁ s.enn)) := by
  simp [SMOTEENN.fit, hc, hb, hs]

/-- Closed instance of C2: fitting the freshly constructed demo object on
the demo data runs validation, base fit and SMOTE fit in order and returns
the updated object. -/
theorem fit_order_and_returns_self_witness :
    SMOTEENN.fit demoBehaviors demoObj demoData =
      ([Event.checkXy demoData, Event.baseFit demoData,
        Event.smoteFit demoData],
        .ok (SMOTEENN.mk demoFittedBase demoObj.sm demoObj.enn)) :=
  fit_order_and_returns_self BaseState SMOTEArgs ENNArgs demoBehaviors
    demoObj demoData demoData demoFittedBase demoObj.sm rfl rfl rfl

/-- C9: `fit` leaves the `enn` collaborator untouched: any object returned
by a successful `fit` carries exactly the `enn` field of the receiver;
only the base-sampler state and the `SMOTE` collaborator are replaced. -/
theorem fit_preserves_enn (σb σs σe : Type)
    (b : Behaviors σb σs σe) (s s' : SMOTEENN σb σs σe) (d : Dataset)
    (h : (SMOTEENN.fit b s d).2 = .ok s') :
    s'.enn = s.enn ∧ ∃ base₁ sm₁, s' = SMOTEENN.mk base₁ sm₁ s.enn := by
  unfold SMOTEENN.fit at h
  repeat' split at h
  all_goals simp at h
  subst h
  exact ⟨rfl, _, _, rfl⟩

/-- Closed instance of C9: the object returned by fitting the demo object
keeps the constructed `enn` collaborator unchanged. -/
theorem fit_preserves_enn_witness :
    (SMOTEENN.mk demoFittedBase demoObj.sm demoObj.enn :
        SMOTEENN BaseState SMOTEArgs ENNArgs).enn = demoObj.enn ∧
      ∃ base₁ sm₁,
        (SMOTEENN.mk demoFittedBase demoObj.sm demoObj.enn :
          SMOTEENN BaseState SMOTEArgs ENNArgs) =
          SMOTEENN.mk base₁ sm₁ demoObj.enn :=
  fit_preserves_enn BaseState SMOTEArgs ENNArgs demoBehaviors demoObj
    (SMOTEENN.mk demoFittedBase demoObj.sm demoObj.enn) demoData rfl

/-- C5: the pipeline is strictly two-stage.  `fit` never calls
`self.enn.fit_transform` at all, and whenever `transform` calls it, the
dataset it is fitted on is exactly the output of `self.sm.transform` on the
validated input — never the raw input data. -/
theorem enn_fitted_only_on_smote_output (σb σs σe : Type)
    (b : Behaviors σb σs σe) (s : SMOTEENN σb σs σe) (d d₀ : Dataset) :
    Event.ennFitTransform d₀ ∉ (SMOTEENN.fit b s d).1 ∧
      (Event.ennFitTransform d₀ ∈ (SMOTEENN.transform b s d).1 →
        ∃ d₁ sm₁, b.check_X_y d = .ok d₁ ∧
          b.smoteTransform s.sm d₁ = .ok (sm₁, d₀)) := by
  constructor
  · unfold SMOTEENN.fit
    repeat' split
    all_goals simp
  · unfold SMOTEENN.transform
    repeat' split
    all_goals intro hmem
    all_goals simp at hmem
    all_goals subst hmem
    all_goals exact ⟨_, _, by assumption, by assumption⟩

/-- Closed instance of C5: on the fitted demo object, the ENN stage of
`transform` is fed the SMOTE output of the validated demo data, and `fit`
performs no ENN call. -/
theorem enn_fitted_only_on_smote_output_witness :
    Event.ennFitTransform demoData ∉
        (SMOTEENN.fit demoBehaviors demoFitted demoData).1 ∧
      ∃ d₁ sm₁, demoBehaviors.check_X_y demoData = .ok d₁ ∧
        demoBehaviors.smoteTransform demoFitted.sm d₁ = .ok (sm₁, demoData) :=
  ⟨(enn_fitted_only_on_smote_output BaseState SMOTEArgs ENNArgs
      demoBehaviors demoFitted demoData demoData).1,
    (enn_fitted_only_on_smote_output BaseState SMOTEArgs ENNArgs
      demoBehaviors demoFitted demoData demoData).2 (by decide)⟩

/-- C4: `SMOTEENN` raises exactly when `check_X_y` or a delegated
collaborator call raises, adding no failure handling of its own: a
validation error propagates unchanged from `fit` and from `transform`
before any base-sampler or collaborator call is made (so the object's state
is untouched), and conversely every error of `fit` or `transform` is the
error of the validation call or of one of the delegated calls made on the
validated data. -/
theorem error_iff_delegated_raises (σb σs σe : Type)
    (b : Behaviors σb σs σe) (s : SMOTEENN σb σs σe) (d : Dataset) :
    (∀ e, b.check_X_y d = .error e →
        SMOTEENN.fit b s d = ([Event.checkXy d], .error e) ∧
        SMOTEENN.transform b s d = ([Event.checkXy d], .error e)) ∧
    (∀ e, (SMOTEENN.fit b s d).2 = .error e →
        b.check_X_y d = .error e ∨
        ∃ d₁, b.check_X_y d = .ok d₁ ∧
          (b.baseFit s.base d₁ = .error e ∨
            ∃ base₁, b.baseFit s.base d₁ = .ok base₁ ∧
              b.smoteFit s.sm d₁ = .error e)) ∧
    (∀ e, (SMOTEENN.transform b s d).2 = .error e →
        b.check_X_y d = .error e ∨
        ∃ d₁, b.check_X_y d = .ok d₁ ∧
          (b.baseTransform s.base d₁ = .error e ∨
            ∃ base₁, b.baseTransform s.base d₁ = .ok base₁ ∧
              (b.smoteTransform s.sm d₁ = .error e ∨
                ∃ sm₁ d₂, b.smoteTransform s.sm d₁ = .ok (sm₁, d₂) ∧
                  b.ennFitTransform s.enn d₂ = .error e))) := by
  refine ⟨fun e he => ?_, fun e he => ?_, fun e he => ?_⟩
  · constructor
    · unfold SMOTEENN.fit
      rw [he]
    · unfold SMOTEENN.transform
      rw [he]
  · unfold SMOTEENN.fit at he
    repeat' split at he
    all_goals simp at he
    · subst he; left; assumption
    · subst he
      exact Or.inr ⟨_, by assumption, Or.inl (by assumption)⟩
    · subst he
      exact Or.inr ⟨_, by assumption,
        Or.inr ⟨_, by assumption, by assumption⟩⟩
  · unfold SMOTEENN.transform at he
    repeat' split at he
    all_goals simp at he
    · subst he; left; assumption
    · subst he
      exact Or.inr ⟨_, by assumption, Or.inl (by assumption)⟩
    · subst he
      exact Or.inr ⟨_, by assumption,
        Or.inr ⟨_, by assumption, Or.inl (by assumption)⟩⟩
    · subst he
      exact Or.inr ⟨_, by assumption,
        Or.inr ⟨_, by assumption,
          Or.inr ⟨_, _, by assumption, by assumption⟩⟩⟩

/-- Closed instance of C4: on a dataset whose `X` and `y` lengths disagree,
both `fit` and `transform` return the validation error with an empty
collaborator trace, leaving the object untouched. -/
theorem error_iff_delegated_raises_witness :
    SMOTEENN.fit demoBehaviors demoObj demoBadData =
      ([Event.checkXy demoBadData],
        .error "Found input variables with inconsistent numbers of samples") ∧
    SMOTEENN.transform demoBehaviors demoObj demoBadData =
      ([Event.checkXy demoBadData],
        .error "Found input variables with inconsistent numbers of samples") :=
  (error_iff_delegated_raises BaseState SMOTEArgs ENNArgs demoBehaviors
    demoObj demoBadData).1
    "Found input variables with inconsistent numbers of samples" rfl

/-- C6: over the modelled `BaseSampler`, with validation passing and the
`SMOTE` and `ENN` collaborators succeeding, the pipeline is defined on
every label vector with exactly two distinct classes — `fit` followed by
`transform` succeeds and yields the resampled dataset — while a label
vector with more than two distinct classes is rejected by the base-sampler
fit, so multi-class inputs are outside the supported precondition. -/
theorem binary_supported_multiclass_rejected (σs σe : Type)
    (b : Behaviors BaseState σs σe) (s : SMOTEENN BaseState σs σe)
    (d d₁ : Dataset) (sm₁ sm₂ : σs) (d₂ : Dataset) (enn₁ : σe)
    (dres : Dataset)
    (hbf : b.baseFit = baseFitModel)
    (hbt : b.baseTransform = baseTransformModel)
    (hc : b.check_X_y d = .ok d₁)
    (hsf : b.smoteFit s.sm d₁ = .ok sm₁)
    (hst : b.smoteTransform sm₁ d₁ = .ok (sm₂, d₂))
    (het : b.ennFitTransform s.enn d₂ = .ok (enn₁, dres)) :
    ((classesOf d₁.y).length = 2 →
        SMOTEENN.fitThenTransform b s d = .ok dres) ∧
    (2 < (classesOf d₁.y).length →
        SMOTEENN.fitThenTransform b s d =
          .error "Multi-class is not supported") := by
  constructor
  · intro h2
    have hnot : ¬ 2 < (classesOf d₁.y).length := by omega
    simp only [SMOTEENN.fitThenTransform, SMOTEENN.fit, SMOTEENN.transform,
      hc, hbf, hbt]
    simp only [baseFitModel, baseTransformModel, if_neg hnot, hsf]
    simp [hst, het]
  · intro hgt
    simp only [SMOTEENN.fitThenTransform, SMOTEENN.fit, hc, hbf]
    simp only [baseFitModel, if_pos hgt]

/-- Closed instance of C6: the binary demo data flows through the whole
pipeline, while the three-class demo data is rejected by the base-sampler
fit. -/
theorem binary_supported_multiclass_rejected_witness :
    SMOTEENN.fitThenTransform demoBehaviors demoObj demoData =
        .ok (Dataset.mk [[0, 0], [1, 1], [2, 2]] [0, 0, 0]) ∧
    SMOTEENN.fitThenTransform demoBehaviors demoObj demoMulticlass =
        .error "Multi-class is not supported" :=
  ⟨(binary_supported_multiclass_rejected SMOTEArgs ENNArgs demoBehaviors
      demoObj demoData demoData demoObj.sm demoObj.sm demoData demoObj.enn
      (Dataset.mk [[0, 0], [1, 1], [2, 2]] [0, 0, 0])
      rfl rfl rfl rfl rfl rfl).1 rfl,
    (binary_supported_multiclass_rejected SMOTEArgs ENNArgs demoBehaviors
      demoObj demoMulticlass demoMulticlass demoObj.sm demoObj.sm
      demoMulticlass demoObj.enn
      (Dataset.mk [[0, 0], [1, 1]] [0, 1])
      rfl rfl rfl rfl rfl rfl).2 (by decide)⟩

end UnbalancedDataset
